import Mathlib

/-!
Verification of the FileHandler API (`auth_server.py`, `models/secrets.py`)
against its natural-language specification.

The filesystem is modelled as a finite structure: regular files are an
association list from path strings to their data (byte content as `List Nat`,
modification time as `Int` seconds — timestamps are modelled already truncated
to integer seconds, matching the `int(...)` truncations in the code),
directories and other (non-regular, non-directory) nodes are path lists, and
raw directory listings are an association list from a directory path to its
immediate entry names.  POSIX collapses runs of `/` in a path to a single
separator, so every filesystem lookup and store goes through `normPath`.
HTTP outcomes are `Except Nat` values carrying the status code that the
handler raises; Python-level crashes (unhandled exceptions) are `Option.none`.
-/

namespace FileHandler

/-- The platform path separator `os.path.sep` (POSIX). -/
def sep : String := "/"

/-- Collapse every run of consecutive `/` characters to a single `/`,
mirroring POSIX path resolution, under which `a//b` names the same node
as `a/b`. -/
def collapseSlashes : List Char → List Char
  | [] => []
  | [c] => [c]
  | c :: d :: rest =>
    if c = '/' ∧ d = '/' then collapseSlashes (d :: rest)
    else c :: collapseSlashes (d :: rest)

/-- Normal form of a path string: runs of separators collapsed. -/
def normPath (p : String) : String := String.mk (collapseSlashes p.data)

/-- Python `s.endswith(suffix)`. -/
def pyEndsWith (s suffix : String) : Bool := suffix.data.isSuffixOf s.data

/-- Python `s.startswith('.')`: the name denotes a hidden (dot) entry. -/
def hiddenName (s : String) : Bool :=
  match s.data with
  | [] => false
  | c :: _ => c = '.'

/-- Data stored for a regular file: its byte content and its modification
time (`st_mtime`, in whole seconds). -/
structure FileData where
  content : List Nat
  mtime : Int
deriving DecidableEq

/-- The filesystem state visible to the handlers. -/
structure FS where
  /-- Regular files: normalized path ↦ data. -/
  files : List (String × FileData)
  /-- Existing directories (normalized paths). -/
  dirs : List String
  /-- Existing nodes that are neither regular files nor directories
  (FIFOs, sockets, ...): writable, but `os.path.isfile` is false. -/
  others : List String
  /-- `os.path.expanduser('~')`: the current user's home directory. -/
  home : String
  /-- Raw `os.listdir` results: directory path ↦ immediate entry names. -/
  listing : List (String × List String)
deriving DecidableEq

/-- Look up the data of the regular file at `p`, if any. -/
def lookupFile (fs : FS) (p : String) : Option FileData :=
  fs.files.lookup (normPath p)

/-- Python `os.path.isfile(p)`. -/
def isfile (fs : FS) (p : String) : Bool := (lookupFile fs p).isSome

/-- Python `os.path.isdir(p)`. -/
def isdir (fs : FS) (p : String) : Bool := fs.dirs.contains (normPath p)

/-- Python `os.path.exists(p)`. -/
def pathExists (fs : FS) (p : String) : Bool :=
  isfile fs p || isdir fs p || fs.others.contains (normPath p)

/-- Python `os.listdir(p)` for an existing directory. -/
def listdir (fs : FS) (p : String) : List String :=
  (fs.listing.lookup (normPath p)).getD []

/-- Modification time recorded for the regular file at `p`
(`int(os.stat(p).st_mtime)`); only meaningful when `isfile` holds. -/
def mtimeOf (fs : FS) (p : String) : Int :=
  match lookupFile fs p with
  | some d => d.mtime
  | none => 0

/-- Byte content of the regular file at `p`; only meaningful when
`isfile` holds. -/
def contentOf (fs : FS) (p : String) : List Nat :=
  match lookupFile fs p with
  | some d => d.content
  | none => []

/-- Python `open(p, 'wb')` followed by `file.write(c)`: fails (raises) when
`p` is a directory, silently consumes the bytes when `p` is an existing
non-regular node, and otherwise creates or overwrites the regular file at
`p` with content `c` and modification time `wt` (the clock at write time). -/
def writeFile (fs : FS) (p : String) (c : List Nat) (wt : Int) : Option FS :=
  let q := normPath p
  if fs.dirs.contains q then none
  else if fs.others.contains q then some fs
  else some { fs with files := (q, ⟨c, wt⟩) :: fs.files }

/-- The `POST /authenticator` handler: compares the submitted form values
against the configured credential pair; on match returns the access token
`username + password`, otherwise raises HTTP 401. -/
def authenticator (cfgUsername cfgPassword username password : String) :
    Except Nat String :=
  if username = cfgUsername ∧ password = cfgPassword then
    Except.ok (username ++ password)
  else
    Except.error 401

/-- The `GET /download-file` handler: joins `FilePath` and `FileName` with
the separator; if the joined path is an existing regular file, refuses dot
files with HTTP 403 and otherwise answers with a `FileResponse` (modelled as
the response path, the suggested filename, and the streamed bytes); if the
joined path is not an existing regular file, raises HTTP 404. -/
def download_file (fs : FS) (FilePath FileName : String) :
    Except Nat (String × String × List Nat) :=
  let file_path := FilePath ++ sep ++ FileName
  if isfile fs file_path then
    if hiddenName FileName then
      Except.error 403
    else
      Except.ok (file_path, FileName, contentOf fs file_path)
  else
    Except.error 404

/-- The `GET /list-directory` handler.  The result of the Python function is
either a raised HTTP error (`Except.error`), the Python value `None`
(`Except.ok none`, from the implicit fall-through return), or a dictionary
`{file_path: inner}` where `inner` is a dictionary with entries among
`"directories"` and `"files"` (modelled as an association list, in insertion
order).  The `if file_listing and dir_listing` tests in the code are Python
truthiness tests on the two one-key dictionaries, modelled as list
non-emptiness of the corresponding association lists. -/
def list_directory (fs : FS) (FilePath : String) :
    Except Nat (Option (String × List (String × List String))) :=
  if isfile fs FilePath then
    Except.error 400
  else
    let resolved : Option (String × List String) :=
      if FilePath = "~" then some (fs.home, listdir fs fs.home)
      else if pathExists fs FilePath then some (FilePath, listdir fs FilePath)
      else none
    match resolved with
    | none => Except.error 404
    | some (file_path, dir_list) =>
      let fileEntries := dir_list.filter
        (fun entry => isfile fs (file_path ++ sep ++ entry) && !hiddenName entry)
      let dirEntries := dir_list.filter
        (fun entry => isdir fs (file_path ++ sep ++ entry) && !hiddenName entry)
      let file_listing : List (String × List String) := [("files", fileEntries)]
      let dir_listing : List (String × List String) := [("directories", dirEntries)]
      if file_listing ≠ [] ∧ dir_listing ≠ [] then
        Except.ok (some (file_path, dir_listing ++ file_listing))
      else if file_listing ≠ [] then
        Except.ok (some (file_path, file_listing))
      else if dir_listing ≠ [] then
        Except.ok (some (file_path, dir_listing))
      else
        Except.ok none

/-- Python `if not (filename := upload.FileName): filename = data.filename`:
the explicit target filename is used when it is supplied and truthy,
otherwise the name attached to the uploaded content stream. -/
def resolveUploadName (FileName : Option String) (dataFilename : String) :
    String :=
  match FileName with
  | none => dataFilename
  | some s => if s.isEmpty then dataFilename else s

/-- The destination path computed by the `POST /upload-file` handler:
the supplied path as-is when it is truthy and already ends with the resolved
filename, otherwise the path concatenated with the filename, inserting the
separator only when the path does not already end with it. -/
def uploadDest (FileName : Option String) (FilePath : String)
    (dataFilename : String) : String :=
  let filename := resolveUploadName FileName dataFilename
  if ¬FilePath.isEmpty ∧ pyEndsWith FilePath filename then FilePath
  else if pyEndsWith FilePath sep then FilePath ++ filename
  else FilePath ++ sep ++ filename

/-- The `POST /upload-file` handler: resolves the destination, writes the
uploaded bytes there (`none` when the write itself raises), then verifies the
write — HTTP 200 when the destination is a regular file whose recorded
modification time (truncated seconds) minus the current time (truncated
seconds) is zero, HTTP 500 otherwise.  `writeTime` is the clock when the
filesystem stamps the write, `now` the clock at the verification check. -/
def upload_file (fs : FS) (FileName : Option String) (FilePath : String)
    (dataFilename : String) (content : List Nat) (writeTime now : Int) :
    Option (FS × Nat) :=
  let dest := uploadDest FileName FilePath dataFilename
  match writeFile fs dest content writeTime with
  | none => none
  | some fs' =>
    if isfile fs' dest then
      if now - mtimeOf fs' dest = 0 then some (fs', 200)
      else some (fs', 500)
    else some (fs', 500)

/-- Truthiness of `os.environ.get(k)`: `None` and the empty string are
falsy. -/
def pyTruthyOpt : Option String → Bool
  | none => false
  | some s => !s.isEmpty

/-- Python `a or b` on strings. -/
def pyOr (a b : String) : String := if a.isEmpty then b else a

/-- Environment lookup `os.environ.get(k)`: `none` when the variable is
absent. -/
def envGet (env : List (String × String)) (k : String) : Option String :=
  env.lookup k

/-- The class body of `models.secrets.Secrets`, run once at import time.
Returns the resulting `(USERNAME, PASSWORD)` pair together with the updated
process environment, or `none` when the body does not produce the pair:
when `COMMIT` is truthy (the guarded block is skipped and the attributes are
never defined), or when the computed `USERNAME` is empty (the code then calls
`input(__prompt=...)`, which raises `TypeError`, since `input` accepts no
keyword argument).  `home`, `pwuidName` and `loginName` are the values of
`os.path.expanduser('~')`, `pwd.getpwuid(os.getuid())[0]` and `os.getlogin()`;
`promptPass` is what `getpass.getpass` would read from the terminal. -/
def secretsInit (env : List (String × String))
    (home pwuidName loginName promptPass : String) :
    Option ((String × String) × List (String × String)) :=
  if pyTruthyOpt (envGet env "COMMIT") then none
  else
    let username : String :=
      match envGet env "USER" with
      | some v => v
      | none => pyOr home (pyOr pwuidName loginName)
    let password : Option String := envGet env "PASSWORD"
    if username.isEmpty then none
    else if pyTruthyOpt password then
      some ((username, password.getD ""), env)
    else
      some ((username, promptPass), ("PASSWORD", promptPass) :: env)

/-- The upload destination rule exactly as the specification words it
(for comparison with `uploadDest`, which is taken from the code): the
supplied target path as-is whenever it already ends with the target
filename, otherwise the path joined to the filename with exactly one
separator. -/
def specUploadDest (filename FilePath : String) : String :=
  if pyEndsWith FilePath filename then FilePath
  else if pyEndsWith FilePath sep then FilePath ++ filename
  else FilePath ++ sep ++ filename

/-- The amended upload destination rule: identical to the specification's
wording except that the use-path-as-is case additionally requires the
supplied path to be non-empty. -/
def specUploadDestAmended (filename FilePath : String) : String :=
  if ¬FilePath.isEmpty ∧ pyEndsWith FilePath filename then FilePath
  else if pyEndsWith FilePath sep then FilePath ++ filename
  else FilePath ++ sep ++ filename

/-! ## Helper lemmas -/

instance {ε α : Type} [DecidableEq ε] [DecidableEq α] : DecidableEq (Except ε α) :=
  fun x y =>
    match x, y with
    | .ok a, .ok b =>
      if h : a = b then isTrue (by rw [h])
      else isFalse (by intro hc; cases hc; exact h rfl)
    | .error a, .error b =>
      if h : a = b then isTrue (by rw [h])
      else isFalse (by intro hc; cases hc; exact h rfl)
    | .ok _, .error _ => isFalse (by intro hc; cases hc)
    | .error _, .ok _ => isFalse (by intro hc; cases hc)

/-- Collapsing is invariant under duplicating a separator: a path written
with `//` at some position names the same normal form as the path written
with a single `/` there. -/
theorem collapseSlashes_dup (l r : List Char) :
    collapseSlashes (l ++ '/' :: '/' :: r) = collapseSlashes (l ++ '/' :: r) := by
  induction l with
  | nil => simp [collapseSlashes]
  | cons c l ih =>
    cases l with
    | nil =>
      simp only [List.nil_append] at ih
      simp [collapseSlashes, ih]
    | cons d l' =>
      simp only [List.cons_append, List.append_eq, collapseSlashes] at ih ⊢
      rw [ih]

/-- Inserting the separator after a path that already ends with the
separator does not change the normalized path. -/
theorem normPath_sep_append (s n : String) (h : pyEndsWith s sep = true) :
    normPath (s ++ sep ++ n) = normPath (s ++ n) := by
  unfold pyEndsWith at h
  rw [List.isSuffixOf_iff_suffix] at h
  obtain ⟨l, hl⟩ := h
  have hsep : sep.data = ['/'] := rfl
  rw [hsep] at hl
  unfold normPath
  congr 1
  rw [String.data_append, String.data_append, String.data_append, ← hl, hsep]
  have h1 : l ++ ['/'] ++ ['/'] ++ n.data = l ++ '/' :: '/' :: n.data := by simp
  have h2 : l ++ ['/'] ++ n.data = l ++ '/' :: n.data := by simp
  rw [h1, h2, collapseSlashes_dup]

/-! ## C4 — token issuance -/

/-- C4: token issuance returns the concatenation of the submitted username
and password exactly when both equal the configured credential pair, and
fails with HTTP 401 in every other case. -/
theorem authenticator_token_iff (cfgU cfgP u p : String) :
    (authenticator cfgU cfgP u p = Except.ok (u ++ p) ↔ (u = cfgU ∧ p = cfgP)) ∧
    (authenticator cfgU cfgP u p = Except.error 401 ↔ ¬(u = cfgU ∧ p = cfgP)) := by
  unfold authenticator
  by_cases h : u = cfgU ∧ p = cfgP <;> simp [h]

/-! ## C8 — listing a file path -/

/-- C8: when the supplied path is an existing regular file, the listing
endpoint fails with HTTP 400 without enumerating it. -/
theorem list_directory_file_bad_request (fs : FS) (p : String)
    (h : isfile fs p = true) :
    list_directory fs p = Except.error 400 := by
  unfold list_directory
  simp [h]

/-- Witness for C8 on a concrete filesystem holding the regular file
`/a/b.txt`. -/
theorem list_directory_file_bad_request_witness :
    isfile ⟨[("/a/b.txt", ⟨[1], 0⟩)], [], [], "", []⟩ "/a/b.txt" = true ∧
    list_directory ⟨[("/a/b.txt", ⟨[1], 0⟩)], [], [], "", []⟩ "/a/b.txt"
      = Except.error 400 :=
  ⟨by decide,
   list_directory_file_bad_request ⟨[("/a/b.txt", ⟨[1], 0⟩)], [], [], "", []⟩
     "/a/b.txt" (by decide)⟩

/-! ## C1 — hidden-file download denial -/

/-- C1 counterexample: the code checks existence before hiddenness, so the
download of the hidden name `.secret` from an empty filesystem fails with
HTTP 404, not with HTTP 403 as the claim requires "regardless of whether the
file exists". -/
theorem download_hidden_counterexample :
    hiddenName ".secret" = true ∧
    download_file ⟨[], [], [], "", []⟩ "/tmp" ".secret" ≠ Except.error 403 ∧
    download_file ⟨[], [], [], "", []⟩ "/tmp" ".secret" = Except.error 404 := by
  decide

/-- C1 amended: a download whose `FileName` is hidden fails with HTTP 403
when the joined path is an existing regular file, and with HTTP 404 when it
is not. -/
theorem download_hidden_denied (fs : FS) (FilePath FileName : String)
    (h : hiddenName FileName = true) :
    (isfile fs (FilePath ++ sep ++ FileName) = true →
      download_file fs FilePath FileName = Except.error 403) ∧
    (isfile fs (FilePath ++ sep ++ FileName) = false →
      download_file fs FilePath FileName = Except.error 404) := by
  unfold download_file
  constructor <;> intro hf <;> simp [hf, h]

/-- Witness for the amended C1 on a filesystem holding the hidden regular
file `/srv/.env`. -/
theorem download_hidden_denied_witness :
    hiddenName ".env" = true ∧
    download_file ⟨[("/srv/.env", ⟨[1], 0⟩)], [], [], "", []⟩ "/srv" ".env"
      = Except.error 403 :=
  ⟨by decide,
   (download_hidden_denied ⟨[("/srv/.env", ⟨[1], 0⟩)], [], [], "", []⟩ "/srv"
     ".env" (by decide)).1 (by decide)⟩

/-! ## C5 — upload destination resolution -/

/-- C5 counterexample: with an empty supplied path and an empty resolved
filename, the path does end with the filename, yet the code (whose
use-as-is branch also requires the path to be truthy) produces `"/"` while
the claim's rule produces the path as-is, `""`. -/
theorem upload_destination_counterexample :
    pyEndsWith "" (resolveUploadName none "") = true ∧
    uploadDest none "" "" ≠ specUploadDest (resolveUploadName none "") "" ∧
    uploadDest none "" "" = "/" ∧
    specUploadDest (resolveUploadName none "") "" = "" := by
  decide

/-- C5 amended: the destination path computed by the upload handler follows
the specification's rule amended so that the use-path-as-is case requires
the supplied path to be non-empty; the filename is the explicit target
filename when supplied and non-empty, otherwise the name attached to the
uploaded content stream. -/
theorem upload_destination_resolution (FileName : Option String)
    (FilePath dataFilename : String) :
    uploadDest FileName FilePath dataFilename
      = specUploadDestAmended (resolveUploadName FileName dataFilename) FilePath :=
  rfl

/-! ## C10 — hidden check applies only to the final component -/

/-- C10: the dot-file denial inspects only `FileName`; a visible filename
below a hidden directory is streamed whenever the joined path is an existing
regular file. -/
theorem download_visible_name_streams (fs : FS) (FilePath FileName : String)
    (hn : hiddenName FileName = false)
    (hf : isfile fs (FilePath ++ sep ++ FileName) = true) :
    download_file fs FilePath FileName
      = Except.ok (FilePath ++ sep ++ FileName, FileName,
          contentOf fs (FilePath ++ sep ++ FileName)) := by
  unfold download_file
  simp [hf, hn]

/-- Witness for C10: `/x/.hid` is a hidden directory, yet the visible file
`a.txt` inside it downloads successfully. -/
theorem download_visible_name_streams_witness :
    download_file ⟨[("/x/.hid/a.txt", ⟨[3, 4], 0⟩)], ["/x/.hid"], [], "", []⟩
      "/x/.hid" "a.txt" = Except.ok ("/x/.hid/a.txt", "a.txt", [3, 4]) :=
  (download_visible_name_streams
    ⟨[("/x/.hid/a.txt", ⟨[3, 4], 0⟩)], ["/x/.hid"], [], "", []⟩
    "/x/.hid" "a.txt" (by decide) (by decide)).trans (by decide)

/-! ## C3 — upload write verification -/

/-- C3: once the uploaded bytes have been written (the write itself did not
raise), the upload answers HTTP 200 exactly when the destination is a
regular file whose recorded modification time (integer seconds) equals the
current time (integer seconds), and HTTP 500 in every other case. -/
theorem upload_verification (fs : FS) (FileName : Option String)
    (FilePath dataFilename : String) (content : List Nat)
    (writeTime now : Int) (fs' : FS) (code : Nat)
    (h : upload_file fs FileName FilePath dataFilename content writeTime now
      = some (fs', code)) :
    (code = 200 ↔
      (isfile fs' (uploadDest FileName FilePath dataFilename) = true ∧
       mtimeOf fs' (uploadDest FileName FilePath dataFilename) = now)) ∧
    (code = 200 ∨ code = 500) := by
  simp only [upload_file] at h
  cases hw : writeFile fs (uploadDest FileName FilePath dataFilename) content
      writeTime with
  | none => rw [hw] at h; cases h
  | some fs'' =>
    rw [hw] at h
    dsimp only [] at h
    by_cases hf : isfile fs'' (uploadDest FileName FilePath dataFilename) = true
    · rw [if_pos hf] at h
      by_cases hm : now - mtimeOf fs'' (uploadDest FileName FilePath dataFilename) = 0
      · rw [if_pos hm] at h
        cases h
        refine ⟨⟨fun _ => ⟨hf, by omega⟩, fun _ => rfl⟩, Or.inl rfl⟩
      · rw [if_neg hm] at h
        cases h
        refine ⟨⟨fun hc => absurd hc (by omega), fun hc => absurd hc.2 (by omega)⟩,
          Or.inr rfl⟩
    · rw [if_neg hf] at h
      cases h
      refine ⟨⟨fun hc => absurd hc (by omega), fun hc => absurd hc.1 hf⟩, Or.inr rfl⟩

/-- Witness for C3: uploading `a` to `/d` on an empty filesystem with the
write stamped at the same (truncated) second as the check answers 200. -/
theorem upload_verification_witness :
    upload_file ⟨[], [], [], "", []⟩ (some "a") "/d" "x" [1, 2] 5 5
      = some (⟨[("/d/a", ⟨[1, 2], 5⟩)], [], [], "", []⟩, 200) ∧
    ((200 = 200 ↔
      (isfile ⟨[("/d/a", ⟨[1, 2], 5⟩)], [], [], "", []⟩
        (uploadDest (some "a") "/d" "x") = true ∧
       mtimeOf ⟨[("/d/a", ⟨[1, 2], 5⟩)], [], [], "", []⟩
        (uploadDest (some "a") "/d" "x") = 5)) ∧
     (200 = 200 ∨ 200 = 500)) :=
  ⟨by decide,
   upload_verification ⟨[], [], [], "", []⟩ (some "a") "/d" "x" [1, 2] 5 5
     ⟨[("/d/a", ⟨[1, 2], 5⟩)], [], [], "", []⟩ 200 (by decide)⟩

/-! ## C2 and C6 — directory listing shape and hidden-entry exclusion -/

/-- Shape of every successful `list_directory` answer: because the two
one-key Python dictionaries are always truthy, the handler always returns
the merged mapping with the `directories` key first and the `files` key
second, each holding the corresponding filtered entries of the resolved
directory. -/
theorem list_directory_ok_shape (fs : FS) (p : String)
    (r : Option (String × List (String × List String)))
    (h : list_directory fs p = Except.ok r) :
    ∃ fp, r = some (fp,
      [("directories", (listdir fs fp).filter
          (fun entry => isdir fs (fp ++ sep ++ entry) && !hiddenName entry)),
       ("files", (listdir fs fp).filter
          (fun entry => isfile fs (fp ++ sep ++ entry) && !hiddenName entry))]) := by
  unfold list_directory at h
  by_cases hf : isfile fs p = true
  · rw [if_pos hf] at h; cases h
  · rw [if_neg hf] at h
    by_cases ht : p = "~"
    · rw [if_pos ht] at h
      dsimp only [] at h
      rw [if_pos (by simp)] at h
      cases h
      exact ⟨fs.home, rfl⟩
    · rw [if_neg ht] at h
      by_cases he : pathExists fs p = true
      · rw [if_pos he] at h
        dsimp only [] at h
        rw [if_pos (by simp)] at h
        cases h
        exact ⟨p, rfl⟩
      · rw [if_neg he] at h
        cases h

/-- C2 counterexample: for the existing directory `/d` whose only visible
entry is the subdirectory `sub`, the files set is empty and the directories
set is not, so the claim requires the result to carry only the directories
set; the code instead returns both sets merged, with an explicit empty
`files` entry. -/
theorem list_directory_counterexample :
    list_directory ⟨[], ["/d", "/d/sub"], [], "/h", [("/d", ["sub"])]⟩ "/d"
      = Except.ok (some ("/d", [("directories", ["sub"]), ("files", [])])) ∧
    list_directory ⟨[], ["/d", "/d/sub"], [], "/h", [("/d", ["sub"])]⟩ "/d"
      ≠ Except.ok (some ("/d", [("directories", ["sub"])])) := by
  decide

/-- C2 amended: every successful listing returns the files set and the
directories set merged under the directory path key, whether or not either
set is empty; the single-set and empty-result cases of the specification
never occur. -/
theorem list_directory_always_merged (fs : FS) (p : String)
    (r : Option (String × List (String × List String)))
    (h : list_directory fs p = Except.ok r) :
    ∃ fp ds fls, r = some (fp, [("directories", ds), ("files", fls)]) := by
  obtain ⟨fp, hr⟩ := list_directory_ok_shape fs p r h
  exact ⟨fp, _, _, hr⟩

/-- Witness for the amended C2 on an existing empty directory: the answer
still carries both keys. -/
theorem list_directory_always_merged_witness :
    list_directory ⟨[], ["/d"], [], "/h", [("/d", [])]⟩ "/d"
      = Except.ok (some ("/d", [("directories", []), ("files", [])])) ∧
    ∃ fp ds fls,
      (some ("/d", [("directories", ([] : List String)),
                    ("files", ([] : List String))]))
        = some (fp, [("directories", ds), ("files", fls)]) :=
  ⟨by decide,
   list_directory_always_merged ⟨[], ["/d"], [], "/h", [("/d", [])]⟩ "/d"
     (some ("/d", [("directories", []), ("files", [])])) (by decide)⟩

/-- C6: no entry whose name begins with `.` ever appears in a listing
result, in either the files set or the directories set. -/
theorem list_directory_no_hidden (fs : FS) (p fp : String)
    (d : List (String × List String))
    (h : list_directory fs p = Except.ok (some (fp, d))) :
    ∀ kl ∈ d, ∀ e ∈ kl.2, hiddenName e = false := by
  obtain ⟨fp', hr⟩ := list_directory_ok_shape fs p (some (fp, d)) h
  rw [Option.some.injEq, Prod.mk.injEq] at hr
  obtain ⟨hfp, hd⟩ := hr
  subst hd
  intro kl hkl e he
  simp only [List.mem_cons, List.mem_singleton, List.not_mem_nil, or_false] at hkl
  rcases hkl with hkl | hkl
  · subst hkl
    have := (List.mem_filter.mp he).2
    exact (Bool.not_eq_true' _).mp (Bool.and_elim_right this)
  · subst hkl
    have := (List.mem_filter.mp he).2
    exact (Bool.not_eq_true' _).mp (Bool.and_elim_right this)

/-- Witness for C6: listing a directory that mixes hidden and visible files
and subdirectories yields only the visible ones. -/
theorem list_directory_no_hidden_witness :
    list_directory
      ⟨[("/d/a.txt", ⟨[], 0⟩), ("/d/.sec", ⟨[], 0⟩)],
       ["/d", "/d/sub", "/d/.hid"], [], "/h",
       [("/d", ["a.txt", ".sec", "sub", ".hid"])]⟩ "/d"
      = Except.ok (some ("/d", [("directories", ["sub"]), ("files", ["a.txt"])])) ∧
    ∀ kl ∈ [("directories", ["sub"]), ("files", ["a.txt"])],
      ∀ e ∈ kl.2, hiddenName e = false :=
  ⟨by decide,
   list_directory_no_hidden
     ⟨[("/d/a.txt", ⟨[], 0⟩), ("/d/.sec", ⟨[], 0⟩)],
      ["/d", "/d/sub", "/d/.hid"], [], "/h",
      [("/d", ["a.txt", ".sec", "sub", ".hid"])]⟩ "/d" "/d"
     [("directories", ["sub"]), ("files", ["a.txt"])] (by decide)⟩

/-! ## C9 — credential sourcing from the environment -/

/-- C9 counterexample: with `USER`, `PASSWORD` and `COMMIT` all absent from
the environment, initialization sets the username to the home-directory
fallback `/root` — not to any interactively entered value — and leaves no
`USER` entry in the resulting environment, contradicting the claim that an
absent `USER` is prompted for and persisted. -/
theorem secrets_init_counterexample :
    secretsInit [] "/root" "ru" "rl" "pw"
      = some (("/root", "pw"), [("PASSWORD", "pw")]) ∧
    envGet [("PASSWORD", "pw")] "USER" = none := by
  decide

/-- C9 amended: when `PASSWORD` is absent it is prompted for and persisted
back into the process environment; when `USER` is absent the username
instead falls back to the home directory (or, if that is empty, the
password-database or login name) without prompting or persisting. -/
theorem secrets_init_fallback (env : List (String × String))
    (home pwuidName loginName promptPass : String)
    (hc : pyTruthyOpt (envGet env "COMMIT") = false)
    (hu : envGet env "USER" = none)
    (hp : envGet env "PASSWORD" = none)
    (hh : home.isEmpty = false) :
    secretsInit env home pwuidName loginName promptPass
      = some ((home, promptPass), ("PASSWORD", promptPass) :: env) := by
  unfold secretsInit pyOr
  rw [hc, hu, hp]
  simp [hh, pyTruthyOpt]

/-- Witness for the amended C9 at a concrete environment. -/
theorem secrets_init_fallback_witness :
    secretsInit [("LANG", "C")] "/home/u" "u" "u" "s3cret"
      = some (("/home/u", "s3cret"), [("PASSWORD", "s3cret"), ("LANG", "C")]) :=
  secrets_init_fallback [("LANG", "C")] "/home/u" "u" "u" "s3cret"
    (by decide) (by decide) (by decide) (by decide)

/-! ## C7 — upload/download round trip -/

/-- C7 counterexample: uploading `data` to the path `/tmp/data` (which ends
with the filename, so the handler uses it as-is and reports success), then
downloading `data` from `/tmp/data`, fails with HTTP 404 instead of
returning the uploaded bytes: the download joins path and filename
unconditionally and looks at `/tmp/data/data`. -/
theorem upload_download_counterexample :
    hiddenName "data" = false ∧
    upload_file ⟨[], [], [], "", []⟩ (some "data") "/tmp/data" "x" [7] 5 5
      = some (⟨[("/tmp/data", ⟨[7], 5⟩)], [], [], "", []⟩, 200) ∧
    download_file ⟨[("/tmp/data", ⟨[7], 5⟩)], [], [], "", []⟩ "/tmp/data" "data"
      = Except.error 404 := by
  decide

/-- C7 amended: for every non-hidden, non-empty filename and every supplied
directory path that does not already end with that filename, an upload that
reports success (HTTP 200) followed by a download of the same filename from
the same directory yields exactly the uploaded bytes; and a download of a
visible filename whose joined path is not an existing regular file fails
with HTTP 404.  (The hypothesis on `fs.others` says the filesystem is
well-formed: a path recorded as a non-regular node is not also recorded as a
regular file.) -/
theorem upload_download_roundtrip :
    (∀ (fs : FS) (n FilePath dataFilename : String) (content : List Nat)
        (writeTime now : Int) (fs' : FS),
      hiddenName n = false →
      n.isEmpty = false →
      pyEndsWith FilePath n = false →
      (∀ q, fs.others.contains q = true → fs.files.lookup q = none) →
      upload_file fs (some n) FilePath dataFilename content writeTime now
        = some (fs', 200) →
      download_file fs' FilePath n
        = Except.ok (FilePath ++ sep ++ n, n, content)) ∧
    (∀ (fs : FS) (FilePath FileName : String),
      hiddenName FileName = false →
      isfile fs (FilePath ++ sep ++ FileName) = false →
      download_file fs FilePath FileName = Except.error 404) := by
  constructor
  · intro fs n FilePath dataFilename content writeTime now fs' hn hne hsuf hwf h
    have hdest : uploadDest (some n) FilePath dataFilename
        = if pyEndsWith FilePath sep then FilePath ++ n
          else FilePath ++ sep ++ n := by
      unfold uploadDest
      rw [show resolveUploadName (some n) dataFilename = n from by
        simp [resolveUploadName, hne]]
      rw [if_neg (by simp [hsuf])]
    set dest := uploadDest (some n) FilePath dataFilename with hdef
    have hnorm : normPath (FilePath ++ sep ++ n) = normPath dest := by
      rw [hdest]
      by_cases hs : pyEndsWith FilePath sep = true
      · rw [if_pos hs]
        exact normPath_sep_append FilePath n hs
      · rw [if_neg hs]
    simp only [upload_file, ← hdef, writeFile] at h
    by_cases hd : fs.dirs.contains (normPath dest) = true
    · rw [if_pos hd] at h; cases h
    · rw [if_neg hd] at h
      by_cases ho : fs.others.contains (normPath dest) = true
      · rw [if_pos ho] at h
        dsimp only [] at h
        have hnot : isfile fs dest = false := by
          unfold isfile lookupFile
          rw [hwf (normPath dest) ho]
          rfl
        rw [hnot] at h
        simp at h
      · rw [if_neg ho] at h
        dsimp only [] at h
        have hlook : lookupFile { fs with files := (normPath dest, ⟨content, writeTime⟩) :: fs.files } dest
            = some ⟨content, writeTime⟩ := by
          unfold lookupFile
          simp [List.lookup_cons_self]
        have hfile : isfile { fs with files := (normPath dest, ⟨content, writeTime⟩) :: fs.files } dest = true := by
          unfold isfile
          rw [hlook]
          rfl
        rw [hfile] at h
        simp only [if_true] at h
        by_cases hm : now - mtimeOf { fs with files := (normPath dest, ⟨content, writeTime⟩) :: fs.files } dest = 0
        · rw [if_pos hm] at h
          rw [Option.some.injEq, Prod.mk.injEq] at h
          obtain ⟨hfs, -⟩ := h
          subst hfs
          simp only [download_file]
          have hlook' : lookupFile { fs with files := (normPath dest, ⟨content, writeTime⟩) :: fs.files } (FilePath ++ sep ++ n)
              = some ⟨content, writeTime⟩ := by
            unfold lookupFile
            unfold lookupFile at hlook
            rw [hnorm]
            exact hlook
          have hfile' : isfile { fs with files := (normPath dest, ⟨content, writeTime⟩) :: fs.files } (FilePath ++ sep ++ n) = true := by
            unfold isfile
            rw [hlook']
            rfl
          rw [hfile']
          simp [hn, contentOf, hlook']
        · rw [if_neg hm] at h
          rw [Option.some.injEq, Prod.mk.injEq] at h
          exact absurd h.2 (by decide)
  · intro fs FilePath FileName hn hf
    simp only [download_file]
    rw [hf]
    simp

/-- Witness for the amended C7: a concrete upload to `/d` followed by the
download of the same name returns the uploaded bytes, and the download of a
missing visible file answers 404. -/
theorem upload_download_roundtrip_witness :
    download_file ⟨[("/d/a", ⟨[1, 2], 5⟩)], [], [], "", []⟩ "/d" "a"
      = Except.ok ("/d" ++ sep ++ "a", "a", [1, 2]) ∧
    download_file ⟨[], [], [], "", []⟩ "/d" "b" = Except.error 404 :=
  ⟨upload_download_roundtrip.1 ⟨[], [], [], "", []⟩ "a" "/d" "x" [1, 2] 5 5
      ⟨[("/d/a", ⟨[1, 2], 5⟩)], [], [], "", []⟩
      (by decide) (by decide) (by decide) (fun _ h => nomatch h) (by decide),
   upload_download_roundtrip.2 ⟨[], [], [], "", []⟩ "/d" "b"
      (by decide) (by decide)⟩

end FileHandler
